import Mathlib

/-!
# Eclipso privacy browser — verification of the Privacy-Policy & Navigation Session Manager

A shallow embedding, in Lean 4, of the stateful core of the Eclipso browser:
the navigation history state machine, the URL normalisation in `load_url`, the
cookie-acceptance policy, the per-session fingerprint application, the header
composition performed by the request interceptor, and the load-finished retry
behaviour.  Python strings are modelled as `List Char`; Python's `random.choice`
is modelled by an injected random source `r : Nat → Nat` read at successive
positions, one draw per `choice` call.  Every definition mirrors one function
of the source (`browser.py`, `browser_broken.py`, `privacy/cookie_manager.py`,
`privacy/fingerprint_protector.py`, `privacy/enhanced_protector.py`).
-/

namespace Eclipso

/-- Characters stripped by Python's `str.strip()` (ASCII whitespace). -/
def pyIsSpace (c : Char) : Bool :=
  c = ' ' || c = '\t' || c = '\n' || c = '\x0d' || c = '\x0b' || c = '\x0c'

/-- Python `s.strip()`: remove leading and trailing whitespace. -/
def pyStrip (s : List Char) : List Char :=
  ((s.dropWhile pyIsSpace).reverse.dropWhile pyIsSpace).reverse

/-- Python `needle in hay` on strings: contiguous-substring containment. -/
def strContains (needle : List Char) : List Char → Bool
  | [] => needle.isPrefixOf []
  | c :: t => needle.isPrefixOf (c :: t) || strContains needle t

/-! ## Cookie policy — `privacy/cookie_manager.py`

`cookie_manager.__init__` fixes `self.cookie_policy = 'block_third_party'`;
`should_accept_cookie(self, cookie, domain)` tests the configured policy
string and, under `block_third_party`, evaluates `domain in cookie.domain`
(Python substring containment of the request domain in the cookie's domain).
-/

/-- The policy configured by `cookie_manager.__init__`. -/
def default_cookie_policy : List Char := "block_third_party".data

/-- `cookie_manager.should_accept_cookie`, with the policy string, the
cookie's domain and the request domain made explicit arguments. -/
def should_accept_cookie (cookie_policy cookieDomain requestDomain : List Char) : Bool :=
  if cookie_policy = "block_all".data then
    false
  else if cookie_policy = "block_third_party".data then
    strContains requestDomain cookieDomain
  else
    true

/-! ## Navigation history — `browser.py` (and `browser_broken.py`)

`PrivacyBrowser.__init__` sets `self.history = []` and `self.current_index = -1`.
`add_to_history` truncates the forward branch, appends, and re-derives the
index; `go_back` / `go_forward` move the index inside bounds; `load_url` reads
the address bar, strips it, prepends `https://` when no scheme is present,
hands the URL to the web view and records it via `add_to_history`.
-/

/-- History plus current position, as held on the `PrivacyBrowser` instance. -/
structure HistState where
  history : List (List Char)
  current_index : Int
  deriving DecidableEq, Repr

/-- The state set up by `PrivacyBrowser.__init__`: empty history, index −1. -/
def initState : HistState := { history := [], current_index := -1 }

/-- `PrivacyBrowser.add_to_history` (browser.py, lines 338–354): truncation of
the forward branch is guarded by `if self.current_index < len(self.history) - 1`,
then the URL is appended and the index becomes `len(self.history) - 1`. -/
def add_to_history (s : HistState) (url : List Char) : HistState :=
  let h :=
    if s.current_index < (s.history.length : Int) - 1 then
      s.history.take (s.current_index + 1).toNat
    else
      s.history
  let h2 := h ++ [url]
  { history := h2, current_index := (h2.length : Int) - 1 }

/-- `PrivacyBrowser.add_to_history` (browser_broken.py, lines 448–463): the
truncation `self.history = self.history[:self.current_index + 1]` is applied
unconditionally before the append. -/
def add_to_history_b (s : HistState) (url : List Char) : HistState :=
  let h := s.history.take (s.current_index + 1).toNat
  let h2 := h ++ [url]
  { history := h2, current_index := (h2.length : Int) - 1 }

/-- `PrivacyBrowser.go_back`: guarded by `if self.current_index > 0`;
otherwise a no-op (the web-view load of the entry is not modelled). -/
def go_back (s : HistState) : HistState :=
  if 0 < s.current_index then { s with current_index := s.current_index - 1 } else s

/-- `PrivacyBrowser.go_forward`: guarded by
`if self.current_index < len(self.history) - 1`; otherwise a no-op. -/
def go_forward (s : HistState) : HistState :=
  if s.current_index < (s.history.length : Int) - 1 then
    { s with current_index := s.current_index + 1 }
  else
    s

/-- The literal `'http://'`. -/
def httpLit : List Char := "http://".data

/-- The literal `'https://'`. -/
def httpsLit : List Char := "https://".data

/-- Python `url.startswith(('http://', 'https://'))`. -/
def hasScheme (u : List Char) : Bool :=
  httpLit.isPrefixOf u || httpsLit.isPrefixOf u

/-- The URL normalisation done inside `PrivacyBrowser.load_url`:
`url = self.address_bar.text().strip()` followed by
`if not url.startswith(('http://', 'https://')): url = 'https://' + url`. -/
def normalize_url (input : List Char) : List Char :=
  let url := pyStrip input
  if hasScheme url then url else httpsLit ++ url

/-- `PrivacyBrowser.load_url` (browser.py, lines 297–310): normalise the
address-bar text, hand it to the web view (not modelled) and record it via
`add_to_history`.  There is no validation and no rejection path. -/
def load_url (s : HistState) (input : List Char) : HistState :=
  add_to_history s (normalize_url input)

/-- The history-mutating operations a session can perform. -/
inductive Op where
  | load (input : List Char)
  | back
  | forward
  deriving DecidableEq, Repr

/-- One UI event dispatched against the history state. -/
def stepOp (s : HistState) : Op → HistState
  | Op.load input => load_url s input
  | Op.back => go_back s
  | Op.forward => go_forward s

/-- A whole session: the sequence of history operations, run in order. -/
def runOps (s : HistState) (ops : List Op) : HistState :=
  ops.foldl stepOp s

/-! ## Fingerprint generator — `privacy/fingerprint_protector.py`

`FingerPrintProtector.__init__` fixes the literal candidate pools below (the
timezone pool repeats entries exactly as written in the source).
`generate_random_fingerprint` evaluates fifteen `random.choice` calls in
source order to build a dict; the dict literal repeats the keys
`webgl_vendor` and `webgl_renderer`, so the ninth and tenth draws are
consumed but overwritten by the fourteenth and fifteenth.  Randomness is
modelled by a source `r : Nat → Nat` read at positions `pos, pos+1, …`;
`random.choice(pool)` at position `k` picks `pool[r k % len(pool)]`.
-/

def user_agents_pool : List (List Char) :=
  [ "Mozilla/5.0 (Macintosh; Intel Mac OS X 10_15_7) AppleWebKit/537.36".data,
    "Mozilla/5.0 (Windows NT 10.0; Win64; x64) AppleWebKit/537.36".data,
    "Mozilla/5.0 (X11; Linux x86_64) AppleWebKit/537.36".data,
    "Mozilla/5.0 (iPhone; CPU iPhone OS 14_0 like Mac OS X) AppleWebKit/605.1.15".data ]

def screen_resolution_pool : List (List Char) :=
  [ "1920x1080".data, "1366x768".data, "1280x720".data, "1024x768".data,
    "800x600".data, "640x480".data, "320x240".data ]

def timezone_pool : List (List Char) :=
  [ "America/New_York".data, "America/Los_Angeles".data, "America/Chicago".data,
    "America/Denver".data, "America/Phoenix".data, "America/New_York".data,
    "America/Los_Angeles".data, "America/Chicago".data, "America/Denver".data,
    "America/Phoenix".data, "America/New_York".data, "America/Los_Angeles".data ]

def language_pool : List (List Char) :=
  [ "en-US".data, "en-GB".data, "en-CA".data, "en-AU".data, "en-NZ".data, "en-ZA".data ]

def plugins_pool : List (List Char) :=
  [ "Flash".data, "Java".data, "Silverlight".data, "QuickTime".data, "RealPlayer".data ]

def platform_pool : List (List Char) :=
  [ "MacIntel".data, "Win32".data, "Linux x86_64".data, "iPhone".data, "iPad".data ]

def color_depth_pool : List (List Char) :=
  [ "8".data, "16".data, "24".data, "32".data ]

/-- The pixel-ratio pool `[1, 2, 1.5]` (exact rationals for the numeric literals). -/
def pixel_ratio_pool : List Rat := [1, 2, 3 / 2]

def webgl_vendor_pool : List (List Char) :=
  [ "Google".data, "Mozilla".data, "Apple".data, "Microsoft".data ]

def webgl_renderer_pool : List (List Char) :=
  [ "Intel".data, "NVIDIA".data, "AMD".data, "Apple".data ]

def webgl_version_pool : List (List Char) :=
  [ "1".data, "2".data, "3".data ]

def webgl_extensions_pool : List (List Char) :=
  [ "WEBGL_depth_texture".data, "WEBGL_draw_buffers".data, "WEBGL_lose_context".data ]

def webgl_sl_version_pool : List (List Char) :=
  [ "1.0".data, "1.1".data, "1.2".data, "1.3".data, "1.4".data, "1.5".data ]

/-- `random.choice(pool)`, reading the injected source at position `k`
(the pools above are non-empty literals, so the default is never reached). -/
def pick (pool : List (List Char)) (r : Nat → Nat) (k : Nat) : List Char :=
  pool.getD (r k % pool.length) []

/-- `random.choice` on the numeric pixel-ratio pool. -/
def pickRat (pool : List Rat) (r : Nat → Nat) (k : Nat) : Rat :=
  pool.getD (r k % pool.length) 1

/-- The dict returned by `generate_random_fingerprint`. -/
structure FingerprintProfile where
  user_agent : List Char
  screen_resolution : List Char
  timezone : List Char
  language : List Char
  plugins : List Char
  platform : List Char
  color_depth : List Char
  pixel_ratio : Rat
  webgl_version : List Char
  webgl_extensions : List Char
  webgl_shading_language_version : List Char
  webgl_vendor : List Char
  webgl_renderer : List Char
  deriving DecidableEq, Repr

/-- `FingerPrintProtector.generate_random_fingerprint`: fifteen draws in
source order; draws `pos+8` and `pos+9` fill the first occurrences of the
duplicated dict keys `webgl_vendor` / `webgl_renderer` and are overwritten
by draws `pos+13` and `pos+14`.  Returns the profile and the next unread
position of the random source. -/
def generate_random_fingerprint (r : Nat → Nat) (pos : Nat) :
    FingerprintProfile × Nat :=
  ({ user_agent := pick user_agents_pool r pos
     screen_resolution := pick screen_resolution_pool r (pos + 1)
     timezone := pick timezone_pool r (pos + 2)
     language := pick language_pool r (pos + 3)
     plugins := pick plugins_pool r (pos + 4)
     platform := pick platform_pool r (pos + 5)
     color_depth := pick color_depth_pool r (pos + 6)
     pixel_ratio := pickRat pixel_ratio_pool r (pos + 7)
     webgl_version := pick webgl_version_pool r (pos + 10)
     webgl_extensions := pick webgl_extensions_pool r (pos + 11)
     webgl_shading_language_version := pick webgl_sl_version_pool r (pos + 12)
     webgl_vendor := pick webgl_vendor_pool r (pos + 13)
     webgl_renderer := pick webgl_renderer_pool r (pos + 14) },
   pos + 15)

/-- `FingerPrintProtector.get_headers_with_random_fingerprints`: generates a
fresh fingerprint on every call and builds the header dict from it.  Returns
the headers and the advanced random-source position. -/
def get_headers_with_random_fingerprints (r : Nat → Nat) (pos : Nat) :
    List (List Char × List Char) × Nat :=
  let g := generate_random_fingerprint r pos
  ([ ("User-Agent".data, g.1.user_agent),
     ("Accept".data, "text/html, application/xhtml+xml, application/xml;q=0.9, */*;q=0.8".data),
     ("Accept-Language".data, g.1.language),
     ("Accept-Encoding".data, "gzip, deflate".data),
     ("DNT".data, "1".data),
     ("Connection".data, "Keep-alive".data),
     ("Upgrade-Insecure-Requests".data, "1".data),
     ("Sec-CH-UA".data, "\"Not_A Brand\";v=\"8\", \"Chromium\";v=\"120\"".data),
     ("Sec-CH-UA-Mobile".data, "?0".data),
     ("Sec-CH-UA-Platform".data, '"' :: (g.1.platform ++ ['"'])) ],
   g.2)

/-! ## Session lifecycle — `browser_broken.py`

`apply_fingerprint_protection` (lines 505–532) returns early when the
attribute `fingerprint_applied` exists; otherwise it generates a profile,
installs a hard-coded Google-compatible user agent on the web-view profile,
sets `fingerprint_applied = True` and stores the profile in
`current_fingerprint`.  `on_load_finished` (lines 349–384) guards the call
with `if not hasattr(self, 'fingerprint_applied')`.  The `hasattr` pattern is
modelled as a boolean flag that starts `false`. -/

/-- The hard-coded user agent that `apply_fingerprint_protection` installs
(`google_compatible_ua` in the source), regardless of the drawn profile. -/
def google_compatible_ua : List Char :=
  "Mozilla/5.0 (Macintosh; Intel Mac OS X 10_15_7) AppleWebKit/537.36 (KHTML, like Gecko) Chrome/131.0.0.0 Safari/537.36".data

/-- The session-scoped identity state of one `PrivacyBrowser` window. -/
structure SessionState where
  fingerprint_applied : Bool
  current_fingerprint : Option FingerprintProfile
  http_user_agent : List Char
  rng : Nat → Nat
  rngPos : Nat

/-- A fresh session: no `fingerprint_applied` attribute, no stored profile
(the engine's user agent starts at whatever the UI set it to). -/
def newSession (ua : List Char) (r : Nat → Nat) : SessionState :=
  { fingerprint_applied := false
    current_fingerprint := none
    http_user_agent := ua
    rng := r
    rngPos := 0 }

/-- `PrivacyBrowser.apply_fingerprint_protection`: early-return when the
session flag is set; else draw a profile, install the hard-coded user agent,
set the flag and store the profile. -/
def apply_fingerprint_protection (s : SessionState) : SessionState :=
  if s.fingerprint_applied then
    s
  else
    let g := generate_random_fingerprint s.rng s.rngPos
    { s with
      fingerprint_applied := true
      current_fingerprint := some g.1
      http_user_agent := google_compatible_ua
      rngPos := g.2 }

/-- The call-site guard inside `PrivacyBrowser.on_load_finished`:
`if not hasattr(self, 'fingerprint_applied'): self.apply_fingerprint_protection()`. -/
def ensure_fingerprint (s : SessionState) : SessionState :=
  if s.fingerprint_applied then s else apply_fingerprint_protection s

/-! ## Request interceptor — `browser_broken.py`, `PrivacyRequestInterceptor`

`interceptRequest(self, info)` (lines 542–574) unconditionally sets eleven
HTTP headers on every outgoing request, then computes
`is_google_essential = any(domain in url for domain in google_essential_domains)`
and returns early (allowing the request) when it holds.  The fall-through
path for all other URLs performs no action either — the source comment reads
"This is where you could add more blocking logic if needed" — so no request
is ever blocked and no tracker/ad verdict is ever produced. -/

/-- The headers `interceptRequest` sets via `info.setHttpHeader`, in source
order, for every outgoing request (the URL does not influence them). -/
def interceptHeaders (_url : List Char) : List (List Char × List Char) :=
  [ ("Accept".data, "text/html,application/xhtml+xml,application/xml;q=0.9,image/avif,image/webp,image/apng,*/*;q=0.8,application/signed-exchange;v=b3;q=0.7".data),
    ("Accept-Language".data, "en-US,en;q=0.9".data),
    ("Accept-Encoding".data, "gzip, deflate, br".data),
    ("DNT".data, "1".data),
    ("Connection".data, "keep-alive".data),
    ("Upgrade-Insecure-Requests".data, "1".data),
    ("Sec-Fetch-Dest".data, "document".data),
    ("Sec-Fetch-Mode".data, "navigate".data),
    ("Sec-Fetch-Site".data, "none".data),
    ("Sec-Fetch-User".data, "?1".data),
    ("Cache-Control".data, "max-age=0".data) ]

/-- `google_essential_domains` from `setup_request_interceptor`. -/
def google_essential_domains : List (List Char) :=
  [ "google.com".data, "googleapis.com".data, "gstatic.com".data,
    "googleusercontent.com".data, "google-analytics.com".data,
    "googletagmanager.com".data, "doubleclick.net".data ]

/-- The three verdicts of the spec's tracker/ad policy. -/
inductive Verdict where
  | Allowed
  | Tracker
  | Ad
  deriving DecidableEq, Repr

/-- The request fate decided by `interceptRequest`: when some essential
domain is a substring of the URL it returns early (the request proceeds);
on the fall-through path no blocking is performed, so the request proceeds
as well.  Both branches are kept to mirror the source's control flow. -/
def interceptVerdict (url : List Char) : Verdict :=
  if google_essential_domains.any (fun d => strContains d url) then
    Verdict.Allowed
  else
    Verdict.Allowed

/-- `self.trackers` from `EnhancedPrivacyProtector.__init__`
(`privacy/enhanced_protector.py`). -/
def tracker_domains : List (List Char) :=
  [ "facebook.com".data, "facebook.net".data, "fbcdn.net".data,
    "instagram.com".data, "instagram.net".data,
    "twitter.com".data, "twimg.com".data, "t.co".data,
    "linkedin.com".data, "licdn.com".data,
    "tiktok.com".data, "tiktokcdn.com".data,
    "google-analytics.com".data, "googletagmanager.com".data,
    "googleadservices.com".data, "doubleclick.net".data,
    "googlesyndication.com".data, "google.com/ads".data,
    "amazon-adsystem.com".data, "amazon.com/ads".data,
    "bing.com/ads".data, "yahoo.com/ads".data,
    "hotjar.com".data, "mixpanel.com".data, "amplitude.com".data,
    "segment.com".data, "optimizely.com".data, "crazyegg.com".data,
    "adnxs.com".data, "adsystem.com".data, "adtech.com".data,
    "criteo.com".data, "taboola.com".data, "outbrain.com".data,
    "adroll.com".data, "adform.com".data, "pubmatic.com".data ]

/-- `self.ad_domains` from `EnhancedPrivacyProtector.__init__`. -/
def ad_domains : List (List Char) :=
  [ "googlesyndication.com".data, "doubleclick.net".data,
    "amazon-adsystem.com".data, "adnxs.com".data,
    "adsystem.com".data, "adtech.com".data ]

/-- Host-part extraction for the spec-side classifier: drop a leading
`http://` or `https://` and read up to the first `/`, `:` or `?`. -/
def extract_domain (url : List Char) : List Char :=
  let rest :=
    if httpsLit.isPrefixOf url then url.drop httpsLit.length
    else if httpLit.isPrefixOf url then url.drop httpLit.length
    else url
  rest.takeWhile (fun c => !(c = '/' || c = ':' || c = '?'))

/-- The spec's matching rule (§4.3): an entry matches a domain when it equals
the domain or is a suffix of it across a `.` boundary. -/
def domain_matches (entry domain : List Char) : Bool :=
  entry = domain || ('.' :: entry).isSuffixOf domain

/-- Follows the spec's words (§4.3), for comparison against the source's
`interceptVerdict`: first-match evaluation over the repository's domain sets
— allow-list (the interceptor's `google_essential_domains`), then
`ad_domains`, then `trackers`, else `Allowed`. -/
def classifySpec (url : List Char) : Verdict :=
  let d := extract_domain url
  if google_essential_domains.any (fun e => domain_matches e d) then Verdict.Allowed
  else if ad_domains.any (fun e => domain_matches e d) then Verdict.Ad
  else if tracker_domains.any (fun e => domain_matches e d) then Verdict.Tracker
  else Verdict.Allowed

/-! ## Load-finished handling — `browser.py`, `PrivacyBrowser.on_load_finished`

On `success`, the handler shows a status message and repaints/raises the web
view; on failure it shows "Failed to load page" and unconditionally calls
`self.web_view.reload()`.  There is no retry counter in either branch. -/

/-- The externally visible actions `on_load_finished` can perform. -/
inductive BrowserAction where
  | statusMessage (msg : List Char)
  | repaint
  | showView
  | raiseView
  | activateWindow
  | reload
  deriving DecidableEq, Repr

/-- `PrivacyBrowser.on_load_finished` (browser.py, lines 323–336), as the
list of actions the handler performs for one engine report. -/
def on_load_finished (success : Bool) : List BrowserAction :=
  if success then
    [ BrowserAction.statusMessage "Page loaded successfully".data,
      BrowserAction.repaint, BrowserAction.showView,
      BrowserAction.raiseView, BrowserAction.activateWindow ]
  else
    [ BrowserAction.statusMessage "Failed to load page".data,
      BrowserAction.reload ]

/-- How many `reload()` calls a list of actions contains. -/
def countReloads (as : List BrowserAction) : Nat :=
  as.countP (fun a => a = BrowserAction.reload)

/-- Total `reload()` calls issued over a sequence of engine
load-finished reports. -/
def totalReloads (events : List Bool) : Nat :=
  (events.map (fun e => countReloads (on_load_finished e))).sum

/-! ## Basic lemmas -/

/-- `strContains` decides the contiguous-infix relation. -/
theorem strContains_iff_infix (n : List Char) (h : List Char) :
    strContains n h = true ↔ n <:+: h := by
  induction h with
  | nil =>
    simp [strContains, List.isPrefixOf_iff_prefix]
  | cons c t ih =>
    simp [strContains, List.isPrefixOf_iff_prefix, ih, List.infix_cons_iff]

/-- Every URL produced by `normalize_url` carries an `http(s)://` scheme. -/
theorem hasScheme_normalize_url (input : List Char) :
    hasScheme (normalize_url input) = true := by
  unfold normalize_url
  by_cases h : hasScheme (pyStrip input) = true
  · simp [h]
  · simp only [h, Bool.false_eq_true, if_false]
    unfold hasScheme
    have : httpsLit.isPrefixOf (httpsLit ++ pyStrip input) = true := by
      rw [List.isPrefixOf_iff_prefix]
      exact List.prefix_append _ _
    simp [this]

/-- Each failure report contributes exactly one reload, so `n` consecutive
failure reports accumulate `n` reload calls. -/
theorem totalReloads_replicate (n : Nat) :
    totalReloads (List.replicate n false) = n := by
  induction n with
  | zero => rfl
  | succ k ih =>
    have hc : countReloads (on_load_finished false) = 1 := by decide
    simp only [totalReloads, List.replicate_succ, List.map_cons, List.sum_cons] at ih ⊢
    omega

/-! ## Claim theorems -/

/-- **C1** — Within one session, applying fingerprint protection is
idempotent: once `apply_fingerprint_protection` has stored a profile and set
the `fingerprint_applied` flag, every later call (both directly and through
the `on_load_finished` guard `ensure_fingerprint`) leaves the whole session
state — stored `FingerprintProfile`, flag, installed user agent — unchanged;
only a fresh session state permits a different profile. -/
theorem apply_fingerprint_protection_idempotent (s : SessionState) :
    apply_fingerprint_protection (apply_fingerprint_protection s)
      = apply_fingerprint_protection s
    ∧ (apply_fingerprint_protection s).fingerprint_applied = true
    ∧ (apply_fingerprint_protection (apply_fingerprint_protection s)).current_fingerprint
      = (apply_fingerprint_protection s).current_fingerprint
    ∧ ensure_fingerprint (apply_fingerprint_protection s) = apply_fingerprint_protection s := by
  unfold ensure_fingerprint apply_fingerprint_protection
  by_cases h : s.fingerprint_applied <;> simp [h]

/-- **C2** — From any history with `-1 ≤ i < n` and `i < n − 1`, navigating
to a new URL discards every entry at a position greater than `i`, appends the
new URL, and sets the index to the new length minus one; the guarded
(`browser.py`) and unconditional (`browser_broken.py`) versions agree. -/
theorem add_to_history_truncates_forward (h : List (List Char)) (i : Int) (url : List Char)
    (h1 : -1 ≤ i) (h2 : i < (h.length : Int)) (h3 : i < (h.length : Int) - 1) :
    add_to_history ⟨h, i⟩ url
      = ⟨h.take (i + 1).toNat ++ [url], ((h.take (i + 1).toNat).length : Int)⟩
    ∧ add_to_history_b ⟨h, i⟩ url
      = ⟨h.take (i + 1).toNat ++ [url], ((h.take (i + 1).toNat).length : Int)⟩ := by
  constructor <;>
  · simp only [add_to_history, add_to_history_b, h3, if_true, HistState.mk.injEq,
      List.length_append, List.length_cons, List.length_nil]
    refine ⟨trivial, ?_⟩
    push_cast
    ring

/-- Witness for C2: history `[A, B, C]` at index 0, then `navigate(D)`,
yields history `[A, D]` at index 1. -/
theorem add_to_history_truncates_forward_checked :
    add_to_history ⟨["https://a.com".data, "https://b.com".data, "https://c.com".data], 0⟩
        "https://d.com".data
      = ⟨["https://a.com".data, "https://d.com".data], 1⟩ := by
  have h := (add_to_history_truncates_forward
    ["https://a.com".data, "https://b.com".data, "https://c.com".data] 0 "https://d.com".data
    (by decide) (by decide) (by decide)).1
  exact h

/-- **C3, counterexample** — the claim says an empty URL passed to the
navigation entry point is rejected with history and index unchanged; in the
code `load_url` has no rejection path: on the empty address-bar input the
history gains the entry `https://` and the index moves to 0. -/
theorem load_url_empty_changes_history :
    (load_url initState "".data).history = [httpsLit]
    ∧ (load_url initState "".data).current_index = 0 := by decide

/-- **C3, amended** — `load_url` never rejects any input: every string,
however empty or malformed, is normalised (strip, then `https://` prepended
when no scheme is present) and appended to the history, with the index set to
the last position; the empty string is recorded as the literal `https://`. -/
theorem load_url_never_rejected (s : HistState) (input : List Char) :
    (load_url s input).history.getLast? = some (normalize_url input)
    ∧ (load_url s input).history ≠ []
    ∧ (load_url s input).current_index = ((load_url s input).history.length : Int) - 1
    ∧ normalize_url "".data = httpsLit := by
  refine ⟨?_, ?_, ?_, by decide⟩
  · simp [load_url, add_to_history, List.getLast?_concat]
  · simp [load_url, add_to_history]
  · simp [load_url, add_to_history]

/-- **C4, counterexample** — the claim says the program classifies URLs
first-match through allow-list, ad list, tracker list; on
`https://adnxs.com/ad.js` (domain in `ad_domains`, not in the allow-list)
that order yields `Ad`, but the interceptor's decision is `Allowed`: the code
evaluates only the allow-list and never consults the ad or tracker lists. -/
theorem interceptVerdict_ignores_ad_list :
    interceptVerdict "https://adnxs.com/ad.js".data = Verdict.Allowed
    ∧ classifySpec "https://adnxs.com/ad.js".data = Verdict.Ad
    ∧ Verdict.Allowed ≠ Verdict.Ad := by decide

/-- **C4, amended** — the interceptor's per-request decision is total and
deterministic, but one-valued: the allow-list substring check only
short-circuits, the fall-through path performs no blocking, and every URL —
in particular one on `doubleclick.net`, which sits in both `ad_domains` and
the allow-list — is `Allowed`. -/
theorem interceptVerdict_always_allowed (url : List Char) :
    interceptVerdict url = Verdict.Allowed
    ∧ interceptVerdict "https://doubleclick.net/ads".data = Verdict.Allowed := by
  constructor
  · unfold interceptVerdict
    split <;> rfl
  · decide

/-- **C5** — `should_accept_cookie` rejects unconditionally under
`block_all`, accepts unconditionally under `allow_all`, and under
`block_third_party` accepts exactly when the request domain is a contiguous
substring of the cookie's domain; a cookie with domain `ads.example.com` is
rejected for request domain `site.com` and accepted for `example.com`. -/
theorem should_accept_cookie_spec (cookieDomain requestDomain : List Char) :
    should_accept_cookie "block_all".data cookieDomain requestDomain = false
    ∧ should_accept_cookie "allow_all".data cookieDomain requestDomain = true
    ∧ (should_accept_cookie "block_third_party".data cookieDomain requestDomain = true
        ↔ requestDomain <:+: cookieDomain)
    ∧ should_accept_cookie "block_third_party".data "ads.example.com".data "site.com".data = false
    ∧ should_accept_cookie "block_third_party".data "ads.example.com".data "example.com".data = true := by
  refine ⟨rfl, rfl, ?_, by decide, by decide⟩
  have h := strContains_iff_infix requestDomain cookieDomain
  simpa [should_accept_cookie] using h

/-- **C6** — the header composition applied to every outgoing request (the
interceptor's `setHttpHeader` sequence) is a total function of the URL: for
every input string, the empty and scheme-less ones included, it produces a
header map that contains the full privacy baseline — `DNT: 1`,
`Upgrade-Insecure-Requests: 1`, `Accept-Encoding`, the four `Sec-Fetch-*`
headers and `Cache-Control`. -/
theorem interceptHeaders_baseline (url : List Char) :
    (interceptHeaders url).lookup "DNT".data = some "1".data
    ∧ (interceptHeaders url).lookup "Upgrade-Insecure-Requests".data = some "1".data
    ∧ (interceptHeaders url).lookup "Accept-Encoding".data = some "gzip, deflate, br".data
    ∧ (interceptHeaders url).lookup "Sec-Fetch-Dest".data = some "document".data
    ∧ (interceptHeaders url).lookup "Sec-Fetch-Mode".data = some "navigate".data
    ∧ (interceptHeaders url).lookup "Sec-Fetch-Site".data = some "none".data
    ∧ (interceptHeaders url).lookup "Sec-Fetch-User".data = some "?1".data
    ∧ (interceptHeaders url).lookup "Cache-Control".data = some "max-age=0".data :=
  ⟨rfl, rfl, rfl, rfl, rfl, rfl, rfl, rfl⟩

/-- **C7, counterexample** — the claim says every header build in a session
presents the session profile's `User-Agent`; with a random source that draws
`0` for the first build's picks and `1` for the second's, two successive
builds in the same session return different `User-Agent` values, so the
headers are not taken from a single per-session profile. -/
theorem header_builds_differ_within_session :
    (get_headers_with_random_fingerprints (fun n => n / 15) 0).1.lookup "User-Agent".data
      ≠ (get_headers_with_random_fingerprints (fun n => n / 15)
          (get_headers_with_random_fingerprints (fun n => n / 15) 0).2).1.lookup
            "User-Agent".data := by decide

/-- **C7, amended** — each call to the header builder generates a fresh
random fingerprint and takes `User-Agent` and `Accept-Language` from that
per-call profile (consuming the session's random source), so repeated builds
within one session may present different values. -/
theorem headers_use_fresh_fingerprint (r : Nat → Nat) (pos : Nat) :
    (get_headers_with_random_fingerprints r pos).1.lookup "User-Agent".data
      = some (generate_random_fingerprint r pos).1.user_agent
    ∧ (get_headers_with_random_fingerprints r pos).1.lookup "Accept-Language".data
      = some (generate_random_fingerprint r pos).1.language
    ∧ (get_headers_with_random_fingerprints r pos).2
      = (generate_random_fingerprint r pos).2 :=
  ⟨rfl, rfl, rfl⟩

/-- **C8, counterexample** — the claim says a failing load gets a single
automatic reload and repeated failures are surfaced only as status messages;
in the code the second failure report of a persistently failing load
triggers a second automatic reload (each failure reloads again, beyond the
single retry). -/
theorem second_failure_triggers_second_reload :
    countReloads (on_load_finished false) = 1
    ∧ 1 < totalReloads (List.replicate 2 false) := by decide

/-- **C8, amended** — every `success=false` report makes `on_load_finished`
show the "Failed to load page" status message and issue exactly one
`reload()`; there is no retry counter or cap, so `n` consecutive failure
reports of a persistently failing load accumulate `n` automatic reloads —
the retries are unbounded, not limited to one. -/
theorem every_failure_reloads_once (n : Nat) :
    totalReloads (List.replicate n false) = n
    ∧ countReloads (on_load_finished false) = 1
    ∧ BrowserAction.statusMessage "Failed to load page".data ∈ on_load_finished false :=
  ⟨totalReloads_replicate n, by decide, by decide⟩

/-- **C9** — every address-bar input is stripped and given an `https://`
scheme when it has none, so after any sequence of session operations every
entry ever stored in the history starts with `http://` or `https://`; the
empty input is recorded as the literal URL `https://` rather than rejected. -/
theorem history_entries_have_scheme :
    (∀ ops : List Op, ∀ u ∈ (runOps initState ops).history, hasScheme u = true)
    ∧ (runOps initState [Op.load "".data]).history = [httpsLit] := by
  constructor
  · have key : ∀ (ops : List Op) (s : HistState),
        (∀ u ∈ s.history, hasScheme u = true) →
        ∀ u ∈ (runOps s ops).history, hasScheme u = true := by
      intro ops
      induction ops with
      | nil =>
        intro s hs
        simpa [runOps] using hs
      | cons op rest ih =>
        intro s hs
        have hstep : ∀ u ∈ (stepOp s op).history, hasScheme u = true := by
          cases op with
          | load input =>
            intro u hu
            simp only [stepOp, load_url, add_to_history] at hu
            rcases List.mem_append.1 hu with hmem | hmem
            · split at hmem
              · exact hs u (List.mem_of_mem_take hmem)
              · exact hs u hmem
            · rw [List.mem_singleton] at hmem
              subst hmem
              exact hasScheme_normalize_url input
          | back =>
            intro u hu
            simp only [stepOp, go_back] at hu
            split at hu <;> exact hs u hu
          | forward =>
            intro u hu
            simp only [stepOp, go_forward] at hu
            split at hu <;> exact hs u hu
        exact ih (stepOp s op) hstep
    intro ops
    refine key ops initState ?_
    intro u hu
    simp [initState] at hu
  · decide

/-- **C10** — for every cookie domain and request domain,
`should_accept_cookie` returns `true` under any policy string other than
`block_all` and `block_third_party`: unrecognised or misspelled policy values
behave exactly like `allow_all` (the policy fails open). -/
theorem unknown_policy_accepts (policy cookieDomain requestDomain : List Char)
    (h1 : policy ≠ "block_all".data) (h2 : policy ≠ "block_third_party".data) :
    should_accept_cookie policy cookieDomain requestDomain = true := by
  simp [should_accept_cookie, h1, h2]

/-- Witness for C10: the misspelled policy string `allow_al` accepts a
third-party cookie. -/
theorem unknown_policy_accepts_checked :
    should_accept_cookie "allow_al".data "ads.example.com".data "site.com".data = true :=
  unknown_policy_accepts "allow_al".data "ads.example.com".data "site.com".data
    (by decide) (by decide)

end Eclipso
